import Mathlib

/-!
Shallow embedding of the psx-emu core (Colin-Suckow/psx-emu) for checking its
natural-language specification.  32-bit machine words are `Nat` values kept
below `2^32` by explicit masking; Rust panics are modelled as `none`.
Sources embedded: `src/cpu/mod.rs` (R3000 interpreter), `src/bus.rs`
(MainBus), `src/lib.rs` (debug accessors).  The modules `cop0.rs`,
`instruction.rs`, `memory.rs`, `bios.rs`, `gpu.rs` and `timer.rs` are not in
the provided sources; the few operations of theirs that the claims need are
modelled from the spec and marked as such in their doc comments.
-/

namespace PsxEmu

/-- Truncate to an unsigned 32-bit value (Rust `u32` wrap-around). -/
def mask32 (n : Nat) : Nat := n % 4294967296

/-- Reinterpret an unsigned 32-bit value as a signed two's-complement `i32`. -/
def toSigned (n : Nat) : Int :=
  if mask32 n < 2147483648 then (mask32 n : Int) else (mask32 n : Int) - 4294967296

/-- Encode a signed integer back into its unsigned 32-bit representation. -/
def toNat32 (z : Int) : Nat := (z % 4294967296).toNat

/-- Rust `u16 as i16 as u32`: sign-extend a 16-bit value to 32 bits. -/
def signExt16 (v : Nat) : Nat := if v % 65536 < 32768 then v % 65536 else v % 65536 + 0xFFFF0000

/-- Rust `u8 as i8 as u32`: sign-extend an 8-bit value to 32 bits. -/
def signExt8 (v : Nat) : Nat := if v % 256 < 128 then v % 256 else v % 256 + 0xFFFFFF00

/-- Rust `u32` wrapping addition. -/
def wrapAdd (a b : Nat) : Nat := mask32 (a + b)

/-- Rust `u32` wrapping subtraction. -/
def wrapSub (a b : Nat) : Nat := mask32 (mask32 a + 4294967296 - mask32 b)

/-- Rust `u32 << n` (result truncated to 32 bits). -/
def shl32 (a n : Nat) : Nat := mask32 (a <<< n)

/-- Rust `u32 >> n` (logical shift right). -/
def shr32 (a n : Nat) : Nat := mask32 a >>> n

/-- Rust `i32 >> n` (arithmetic shift right), on the unsigned representation. -/
def sra32 (a n : Nat) : Nat := toNat32 (Int.fdiv (toSigned a) (2 ^ n))

/-- Rust `!x` for `u32`: bitwise complement within 32 bits. -/
def not32 (a : Nat) : Nat := mask32 a ^^^ 0xFFFFFFFF

/-- Rust `i32::checked_add`: `none` exactly when the signed sum overflows. -/
def checkedAddI32 (a b : Int) : Option Int :=
  if a + b < -2147483648 ∨ 2147483647 < a + b then none else some (a + b)

/-- Modelled from the spec (§4.4), `src/cpu/instruction.rs` being absent:
a 32-bit instruction decomposes as opcode=bits[31:26], rs=bits[25:21],
rt=bits[20:16], rd=bits[15:11], shamt=bits[10:6], funct=bits[5:0],
immediate=bits[15:0] (a raw 16-bit field), address=bits[25:0]. -/
def Instruction.opcode (i : Nat) : Nat := (i >>> 26) &&& 0x3F

/-- Bits 25:21 of the instruction word (see `Instruction.opcode`). -/
def Instruction.rs (i : Nat) : Nat := (i >>> 21) &&& 0x1F

/-- Bits 20:16 of the instruction word (see `Instruction.opcode`). -/
def Instruction.rt (i : Nat) : Nat := (i >>> 16) &&& 0x1F

/-- Bits 15:11 of the instruction word (see `Instruction.opcode`). -/
def Instruction.rd (i : Nat) : Nat := (i >>> 11) &&& 0x1F

/-- Bits 10:6 of the instruction word (see `Instruction.opcode`). -/
def Instruction.shamt (i : Nat) : Nat := (i >>> 6) &&& 0x1F

/-- Bits 5:0 of the instruction word (see `Instruction.opcode`). -/
def Instruction.funct (i : Nat) : Nat := i &&& 0x3F

/-- Bits 15:0 of the instruction word: the raw 16-bit immediate field
(Rust `u16`; see `Instruction.opcode`). -/
def Instruction.immediate (i : Nat) : Nat := i &&& 0xFFFF

/-- Bits 25:0 of the instruction word (see `Instruction.opcode`). -/
def Instruction.address (i : Nat) : Nat := i &&& 0x3FFFFFF

/-- Modelled from the spec (§4.4): "Sign-extended immediate = immediate
treated as int16 widened to u32". -/
def Instruction.immediate_sign_extended (i : Nat) : Nat :=
  signExt16 (Instruction.immediate i)

/-- Modelled from the spec (§2, §4.1), `src/memory.rs` being absent: 2 MiB of
main RAM with byte/halfword/word little-endian accessors, addressed by
physical offset. -/
structure Memory where
  data : Nat → Nat

/-- Byte read from RAM at a physical offset. -/
def Memory.read_byte (m : Memory) (addr : Nat) : Nat := m.data addr

/-- Byte write to RAM at a physical offset. -/
def Memory.write_byte (m : Memory) (addr v : Nat) : Memory :=
  ⟨fun j => if j = addr then v % 256 else m.data j⟩

/-- Little-endian halfword read from RAM. -/
def Memory.read_half_word (m : Memory) (addr : Nat) : Nat :=
  m.data addr + 256 * m.data (addr + 1)

/-- Little-endian halfword write to RAM. -/
def Memory.write_half_word (m : Memory) (addr v : Nat) : Memory :=
  (m.write_byte addr (v % 256)).write_byte (addr + 1) (v / 256 % 256)

/-- Little-endian word read from RAM. -/
def Memory.read_word (m : Memory) (addr : Nat) : Nat :=
  m.data addr + 256 * m.data (addr + 1) + 65536 * m.data (addr + 2) +
    16777216 * m.data (addr + 3)

/-- Little-endian word write to RAM. -/
def Memory.write_word (m : Memory) (addr v : Nat) : Memory :=
  (((m.write_byte addr (v % 256)).write_byte (addr + 1) (v / 256 % 256)).write_byte
      (addr + 2) (v / 65536 % 256)).write_byte (addr + 3) (v / 16777216 % 256)

/-- Modelled from the spec (§2, §4.1), `src/bios.rs` being absent: 512 KiB
read-only image with read accessors. -/
structure Bios where
  data : Nat → Nat

/-- Byte read from the BIOS image. -/
def Bios.read_byte (b : Bios) (addr : Nat) : Nat := b.data addr

/-- Little-endian word read from the BIOS image. -/
def Bios.read_word (b : Bios) (addr : Nat) : Nat :=
  b.data addr + 256 * b.data (addr + 1) + 65536 * b.data (addr + 2) +
    16777216 * b.data (addr + 3)

/-- Modelled from the spec (§1, §4.6), `src/gpu.rs` being absent: the GPU is
out of scope except for the contract the core consumes — the GPUREAD and
GPUSTAT read values and the vblank edge flag polled by `consume_vblank`. -/
structure Gpu where
  gpuread : Nat
  gpustat : Nat
  vblank : Bool

/-- GPUREAD port value (GPU internals out of scope). -/
def Gpu.read_word_gp0 (g : Gpu) : Nat := g.gpuread

/-- GPUSTAT register value (GPU internals out of scope). -/
def Gpu.read_status_register (g : Gpu) : Nat := g.gpustat

/-- Modelled from the spec (§4.6): return the vblank edge flag and clear it. -/
def Gpu.consume_vblank (g : Gpu) : Bool × Gpu := (g.vblank, { g with vblank := false })

/-- Modelled from the spec (§1): GP0 command processing is out of scope; the
observable core state is unchanged. -/
def Gpu.send_gp0_command (g : Gpu) (_w : Nat) : Gpu := g

/-- Modelled from the spec (§1): GP1 command processing is out of scope; the
observable core state is unchanged. -/
def Gpu.send_gp1_command (g : Gpu) (_w : Nat) : Gpu := g

/-- Modelled from the spec (§1, §4.2), `src/timer.rs` being absent: timer
counter arithmetic is out of scope; the timers are a delegated register file
accepting memory-mapped reads and writes. -/
structure TimerState where
  regs : Nat → Nat

/-- Timer register word read (timer internals out of scope). -/
def TimerState.read_word (t : TimerState) (addr : Nat) : Nat := t.regs addr

/-- Timer register word write (timer internals out of scope). -/
def TimerState.write_word (t : TimerState) (addr v : Nat) : TimerState :=
  ⟨fun j => if j = addr then v else t.regs j⟩

/-- Timer register halfword read (timer internals out of scope). -/
def TimerState.read_half_word (t : TimerState) (addr : Nat) : Nat := t.regs addr % 65536

/-- Timer register halfword write (timer internals out of scope). -/
def TimerState.write_half_word (t : TimerState) (addr v : Nat) : TimerState :=
  ⟨fun j => if j = addr then v % 65536 else t.regs j⟩

/-- The system bus: `MainBus` from `src/bus.rs`. -/
structure MainBus where
  bios : Bios
  memory : Memory
  gpu : Gpu

/-- `MainBus::read_word` (`src/bus.rs:16`): address-decoded word read; `none`
models the panic on an unmapped address.  Match arms in source order. -/
def MainBus.read_word (bus : MainBus) (addr : Nat) : Option Nat :=
  if addr ≤ 0x001fffff then some (bus.memory.read_word addr)
  else if 0x80000000 ≤ addr ∧ addr ≤ 0x801fffff then
    some (bus.memory.read_word (addr - 0x80000000))
  else if addr = 0x1f801810 then some bus.gpu.read_word_gp0
  else if addr = 0x1f801814 then some bus.gpu.read_status_register
  else if 0x1f801000 ≤ addr ∧ addr ≤ 0x1f802fff then some 0
  else if 0xA0000000 ≤ addr ∧ addr ≤ 0xA01fffff then
    some (bus.memory.read_word (addr - 0xA0000000))
  else if 0xbfc00000 ≤ addr ∧ addr ≤ 0xbfc7ffff then
    some (bus.bios.read_word (addr - 0xbfc00000))
  else none

/-- `MainBus::write_word` (`src/bus.rs:36`): address-decoded word write;
`none` models the panics (BIOS window, unmapped address). -/
def MainBus.write_word (bus : MainBus) (addr w : Nat) : Option MainBus :=
  if addr ≤ 0x001fffff then some { bus with memory := bus.memory.write_word addr w }
  else if addr = 0x1F801074 then some bus
  else if 0x80000000 ≤ addr ∧ addr ≤ 0x801fffff then
    some { bus with memory := bus.memory.write_word (addr - 0x80000000) w }
  else if 0xA0000000 ≤ addr ∧ addr ≤ 0xA01fffff then
    some { bus with memory := bus.memory.write_word (addr - 0xA0000000) w }
  else if addr = 0x1F801810 then some { bus with gpu := bus.gpu.send_gp0_command w }
  else if addr = 0x1F801814 then some { bus with gpu := bus.gpu.send_gp1_command w }
  else if 0x1f801000 ≤ addr ∧ addr ≤ 0x1f802fff then some bus
  else if 0xbfc00000 ≤ addr ∧ addr ≤ 0xbfc7ffff then none
  else if 0xFFFE0000 ≤ addr ∧ addr ≤ 0xFFFE0200 then some bus
  else none

/-- `MainBus::read_half_word` (`src/bus.rs:56`): only the KSEG0 RAM mirror
and the stub I/O window are decoded; everything else panics (`none`). -/
def MainBus.read_half_word (bus : MainBus) (addr : Nat) : Option Nat :=
  if 0x80000000 ≤ addr ∧ addr ≤ 0x801fffff then
    some (bus.memory.read_half_word (addr - 0x80000000))
  else if 0x1f801000 ≤ addr ∧ addr ≤ 0x1f802fff then some 0
  else none

/-- `MainBus::write_half_word` (`src/bus.rs:67`). -/
def MainBus.write_half_word (bus : MainBus) (addr v : Nat) : Option MainBus :=
  if addr ≤ 0x001fffff then some { bus with memory := bus.memory.write_half_word addr v }
  else if 0x80000000 ≤ addr ∧ addr ≤ 0x801fffff then
    some { bus with memory := bus.memory.write_half_word (addr - 0x80000000) v }
  else if 0x1F801000 ≤ addr ∧ addr ≤ 0x1F802000 then some bus
  else none

/-- `MainBus::read_byte` (`src/bus.rs:76`): note the absence of a
`0xA000_0000..=0xA01f_ffff` (KSEG1) arm — a KSEG1 byte read panics. -/
def MainBus.read_byte (bus : MainBus) (addr : Nat) : Option Nat :=
  if addr ≤ 0x001fffff then some (bus.memory.read_byte addr)
  else if 0x1F000000 ≤ addr ∧ addr ≤ 0x1f00FFFF then some 0
  else if 0x80000000 ≤ addr ∧ addr ≤ 0x801fffff then
    some (bus.memory.read_byte (addr - 0x80000000))
  else if 0xbfc00000 ≤ addr ∧ addr ≤ 0xbfc7ffff then
    some (bus.bios.read_byte (addr - 0xbfc00000))
  else none

/-- `MainBus::write_byte` (`src/bus.rs:92`): the Expansion-2 arm precedes the
RAM arms, exactly as in the source. -/
def MainBus.write_byte (bus : MainBus) (addr v : Nat) : Option MainBus :=
  if 0x1F802000 ≤ addr ∧ addr ≤ 0x1F803000 then some bus
  else if addr ≤ 0x001fffff then some { bus with memory := bus.memory.write_byte addr v }
  else if 0x80000000 ≤ addr ∧ addr ≤ 0x801fffff then
    some { bus with memory := bus.memory.write_byte (addr - 0x80000000) v }
  else if 0xA0000000 ≤ addr ∧ addr ≤ 0xA01fffff then
    some { bus with memory := bus.memory.write_byte (addr - 0xA0000000) v }
  else none

/-- Modelled from the spec (§3, §4.3), `src/cpu/cop0.rs` being absent:
thirty-two 32-bit registers, `read_reg`/`write_reg` as plain storage. -/
structure Cop0 where
  regs : Nat → Nat

/-- Plain storage read (spec §4.3). -/
def Cop0.read_reg (c : Cop0) (i : Nat) : Nat := c.regs i

/-- Plain storage write (spec §4.3). -/
def Cop0.write_reg (c : Cop0) (i v : Nat) : Cop0 :=
  ⟨fun j => if j = i then v else c.regs j⟩

/-- Modelled from the spec (§4.3): registers start as plain zeroed storage. -/
def Cop0.new : Cop0 := ⟨fun _ => 0⟩

/-- Modelled from the spec (§3, §4.3): write the ExcCode bits (Cause bits
2–6) without disturbing other bits.  `exc` is the numeric ExcCode. -/
def Cop0.set_cause_execode (c : Cop0) (exc : Nat) : Cop0 :=
  c.write_reg 13 ((c.read_reg 13 &&& 0xFFFFFF83) ||| ((exc <<< 2) &&& 0x7C))

/-- Modelled from the spec (§4.3): interrupts are enabled when Status bit 0
(IEc) is set. -/
def Cop0.interrupt_enabled (c : Cop0) : Bool := (c.read_reg 12).testBit 0

/-- Modelled from the spec (§4.3): cache isolation is Status bit 16. -/
def Cop0.cache_isolated (c : Cop0) : Bool := (c.read_reg 12).testBit 16

/-- The CPU state: `R3000` from `src/cpu/mod.rs:53` (the host-side trace
file is omitted — it carries no emulated state). -/
structure R3000 where
  gen_registers : Nat → Nat
  pc : Nat
  old_pc : Nat
  hi : Nat
  lo : Nat
  main_bus : MainBus
  delay_slot : Nat
  cop0 : Cop0
  load_delay : Option (Nat × Nat)
  i_mask : Nat
  i_status : Nat

/-- `R3000::read_reg` (`src/cpu/mod.rs:768`). -/
def R3000.read_reg (s : R3000) (register_number : Nat) : Nat :=
  s.gen_registers register_number

/-- `R3000::write_reg` (`src/cpu/mod.rs:773`): writing register 0 is a
no-op. -/
def R3000.write_reg (s : R3000) (register_number v : Nat) : R3000 :=
  if register_number = 0 then s
  else { s with gen_registers := fun j => if j = register_number then v else s.gen_registers j }

/-- `R3000::new` (`src/cpu/mod.rs:69`) over a given bus. -/
def R3000.new (bus : MainBus) : R3000 :=
  { gen_registers := fun _ => 0
    pc := 0
    old_pc := 0
    hi := 0
    lo := 0
    main_bus := bus
    delay_slot := 0
    cop0 := Cop0.new
    load_delay := none
    i_mask := 0
    i_status := 0 }

/-- `R3000::reset` (`src/cpu/mod.rs:86`): zero the GPRs and HI/LO, point PC
at the BIOS entry, and set bit 23 of COP0 Status (`set_bit(23, true)`). -/
def R3000.reset (s : R3000) : R3000 :=
  { s with
    gen_registers := fun _ => 0
    hi := 0
    lo := 0
    pc := 0xBFC00000
    cop0 := s.cop0.write_reg 12 (s.cop0.read_reg 12 ||| (1 <<< 23)) }

/-- `R3000::fire_exception` (`src/cpu/mod.rs:667`): `none` models the panic
when a branch-delay slot is armed.  Note the final write that shifts the
whole Status register left by 4 (`src/cpu/mod.rs:681`). -/
def R3000.fire_exception (s : R3000) (exc : Nat) : Option R3000 :=
  if s.delay_slot ≠ 0 then none
  else
    let c1 := s.cop0.set_cause_execode exc
    let c2 := c1.write_reg 14 s.pc
    let old_status := c2.read_reg 12
    let c3 := c2.write_reg 12
      ((old_status &&& 0xFFFFFFC0) ||| (((old_status &&& 0x3f) <<< 2) &&& 0x3f))
    let pc' := if (c3.read_reg 12).testBit 23 then 0xBFC00180 else 0x80000080
    let c4 := c3.write_reg 12 (mask32 (c3.read_reg 12 <<< 4))
    some { s with cop0 := c4, pc := pc' }

/-- `R3000::fire_external_interrupt` (`src/cpu/mod.rs:684`): set the I_STAT
bit for the source, then fire the Int exception at once when the I_MASK bit
is set.  Sources are their `InterruptSource` discriminants (VBLANK=0 …
Lightpen=10). -/
def R3000.fire_external_interrupt (s : R3000) (source : Nat) : Option R3000 :=
  let s' := { s with i_status := s.i_status ||| (1 <<< source) }
  if s'.i_mask.testBit source then s'.fire_exception 0 else some s'

/-- `R3000::read_bus_word` (`src/cpu/mod.rs:695`): I_STAT, I_MASK and the
timer window are intercepted before the main bus. -/
def R3000.read_bus_word (s : R3000) (addr : Nat) (t : TimerState) : Option Nat :=
  if addr = 0x1F801070 then some s.i_status
  else if addr = 0x1F801074 then some s.i_mask
  else if 0x1F801100 ≤ addr ∧ addr ≤ 0x1F801128 then some (t.read_word addr)
  else s.main_bus.read_word addr

/-- `R3000::write_bus_word` (`src/cpu/mod.rs:707`): dropped entirely when the
cache is isolated; an I_STAT write acknowledges (`i_status &= val`). -/
def R3000.write_bus_word (s : R3000) (addr v : Nat) (t : TimerState) :
    Option (R3000 × TimerState) :=
  if s.cop0.cache_isolated then some (s, t)
  else if addr = 0x1F801070 then some ({ s with i_status := s.i_status &&& v }, t)
  else if addr = 0x1F801074 then some ({ s with i_mask := v }, t)
  else if 0x1F801100 ≤ addr ∧ addr ≤ 0x1F801128 then some (s, t.write_word addr v)
  else (s.main_bus.write_word addr v).map fun mb => ({ s with main_bus := mb }, t)

/-- `R3000::read_bus_half_word` (`src/cpu/mod.rs:728`). -/
def R3000.read_bus_half_word (s : R3000) (addr : Nat) (t : TimerState) : Option Nat :=
  if addr = 0x1F801070 then some (s.i_status % 65536)
  else if addr = 0x1F801074 then some (s.i_mask % 65536)
  else if 0x1F801100 ≤ addr ∧ addr ≤ 0x1F801128 then some (t.read_half_word addr)
  else s.main_bus.read_half_word addr

/-- `R3000::write_bus_half_word` (`src/cpu/mod.rs:739`). -/
def R3000.write_bus_half_word (s : R3000) (addr v : Nat) (t : TimerState) :
    Option (R3000 × TimerState) :=
  if s.cop0.cache_isolated then some (s, t)
  else if addr = 0x1F801070 then some ({ s with i_status := s.i_status &&& (v % 65536) }, t)
  else if addr = 0x1F801074 then some ({ s with i_mask := v % 65536 }, t)
  else if 0x1F801100 ≤ addr ∧ addr ≤ 0x1F801128 then some (s, t.write_half_word addr v)
  else (s.main_bus.write_half_word addr v).map fun mb => ({ s with main_bus := mb }, t)

/-- `R3000::write_bus_byte` (`src/cpu/mod.rs:759`): dropped when the cache is
isolated, otherwise delegated to the main bus. -/
def R3000.write_bus_byte (s : R3000) (addr v : Nat) : Option R3000 :=
  if s.cop0.cache_isolated then some s
  else (s.main_bus.write_byte addr v).map fun mb => { s with main_bus := mb }

/-- `R3000::execute_instruction` (`src/cpu/mod.rs:140`): full opcode/funct
dispatch.  `none` models every panic (unaligned PC or delay slot, unknown
opcode/funct/branch selector, ADD/ADDI overflow, DIV/DIVU host trap, bus
panics).  Arms appear in source order. -/
def R3000.execute_instruction (s : R3000) (t : TimerState) (ins : Nat) :
    Option (R3000 × TimerState) :=
  if s.pc % 4 ≠ 0 ∨ s.delay_slot % 4 ≠ 0 then none
  else if Instruction.opcode ins = 0x0 then
    if Instruction.funct ins = 0x0 then
      if ins = 0 then some (s, t)
      else some (s.write_reg (Instruction.rd ins)
        (shl32 (s.read_reg (Instruction.rt ins)) (Instruction.shamt ins)), t)
    else if Instruction.funct ins = 0x2 then
      some (s.write_reg (Instruction.rd ins)
        (shr32 (s.read_reg (Instruction.rt ins)) (Instruction.shamt ins)), t)
    else if Instruction.funct ins = 0x3 then
      some (s.write_reg (Instruction.rd ins)
        (sra32 (s.read_reg (Instruction.rt ins)) (Instruction.shamt ins)), t)
    else if Instruction.funct ins = 0x4 then
      some (s.write_reg (Instruction.rd ins)
        (shl32 (s.read_reg (Instruction.rt ins)) (s.read_reg (Instruction.rs ins) &&& 0x1F)), t)
    else if Instruction.funct ins = 0x6 then
      some (s.write_reg (Instruction.rd ins)
        (shr32 (s.read_reg (Instruction.rt ins)) (s.read_reg (Instruction.rs ins) &&& 0x1F)), t)
    else if Instruction.funct ins = 0x7 then
      some (s.write_reg (Instruction.rd ins)
        (sra32 (s.read_reg (Instruction.rt ins)) (s.read_reg (Instruction.rs ins) &&& 0x1F)), t)
    else if Instruction.funct ins = 0x8 then
      some ({ s with delay_slot := s.pc, pc := s.read_reg (Instruction.rs ins) }, t)
    else if Instruction.funct ins = 0x9 then
      some (({ s with delay_slot := s.pc,
                      pc := s.read_reg (Instruction.rs ins) }).write_reg
        (Instruction.rd ins) (wrapAdd s.pc 4), t)
    else if Instruction.funct ins = 0xC then
      (s.fire_exception 8).map fun s' => (s', t)
    else if Instruction.funct ins = 0x10 then
      some (s.write_reg (Instruction.rd ins) s.hi, t)
    else if Instruction.funct ins = 0x11 then
      some ({ s with hi := s.read_reg (Instruction.rs ins) }, t)
    else if Instruction.funct ins = 0x12 then
      some (s.write_reg (Instruction.rd ins) s.lo, t)
    else if Instruction.funct ins = 0x13 then
      some ({ s with lo := s.read_reg (Instruction.rs ins) }, t)
    else if Instruction.funct ins = 0x1A then
      let a := toSigned (s.read_reg (Instruction.rs ins))
      let b := toSigned (s.read_reg (Instruction.rt ins))
      if b = 0 ∨ (a = -2147483648 ∧ b = -1) then none
      else some ({ s with lo := toNat32 (Int.tdiv a b), hi := toNat32 (Int.tmod a b) }, t)
    else if Instruction.funct ins = 0x1B then
      let a := mask32 (s.read_reg (Instruction.rs ins))
      let b := mask32 (s.read_reg (Instruction.rt ins))
      if b = 0 then none
      else some ({ s with lo := a / b, hi := a % b }, t)
    else if Instruction.funct ins = 0x20 then
      match checkedAddI32 (toSigned (s.read_reg (Instruction.rs ins)))
          (toSigned (s.read_reg (Instruction.rt ins))) with
      | none => none
      | some z => some (s.write_reg (Instruction.rd ins) (toNat32 z), t)
    else if Instruction.funct ins = 0x2B then
      some (s.write_reg (Instruction.rd ins)
        (if s.read_reg (Instruction.rs ins) < s.read_reg (Instruction.rt ins) then 1 else 0), t)
    else if Instruction.funct ins = 0x23 then
      some (s.write_reg (Instruction.rd ins)
        (wrapSub (s.read_reg (Instruction.rs ins)) (s.read_reg (Instruction.rt ins))), t)
    else if Instruction.funct ins = 0x24 then
      some (s.write_reg (Instruction.rd ins)
        (s.read_reg (Instruction.rs ins) &&& s.read_reg (Instruction.rt ins)), t)
    else if Instruction.funct ins = 0x25 then
      some (s.write_reg (Instruction.rd ins)
        (s.read_reg (Instruction.rs ins) ||| s.read_reg (Instruction.rt ins)), t)
    else if Instruction.funct ins = 0x26 then
      some (s.write_reg (Instruction.rd ins)
        (s.read_reg (Instruction.rs ins) ^^^ s.read_reg (Instruction.rt ins)), t)
    else if Instruction.funct ins = 0x27 then
      some (s.write_reg (Instruction.rd ins)
        (not32 (s.read_reg (Instruction.rt ins) ||| s.read_reg (Instruction.rs ins))), t)
    else if Instruction.funct ins = 0x21 then
      some (s.write_reg (Instruction.rd ins)
        (wrapAdd (s.read_reg (Instruction.rt ins)) (s.read_reg (Instruction.rs ins))), t)
    else if Instruction.funct ins = 0x19 then
      let r := mask32 (s.read_reg (Instruction.rs ins)) * mask32 (s.read_reg (Instruction.rt ins))
      some ({ s with lo := r &&& 0xFFFFFFFF, hi := (r >>> 32) &&& 0xFFFFFFFF }, t)
    else if Instruction.funct ins = 0x2A then
      some (s.write_reg (Instruction.rd ins)
        (if toSigned (s.read_reg (Instruction.rs ins)) <
            toSigned (s.read_reg (Instruction.rt ins)) then 1 else 0), t)
    else none
  else if Instruction.opcode ins = 0x1 then
    if Instruction.rt ins = 0x0 then
      if toSigned (s.read_reg (Instruction.rs ins)) < 0 then
        some ({ s with delay_slot := s.pc,
                       pc := wrapAdd (shl32 (Instruction.immediate_sign_extended ins) 2) s.pc }, t)
      else some (s, t)
    else if Instruction.rt ins = 0x1 then
      if 0 ≤ toSigned (s.read_reg (Instruction.rs ins)) then
        some ({ s with delay_slot := s.pc,
                       pc := wrapAdd (shl32 (Instruction.immediate_sign_extended ins) 2) s.pc }, t)
      else some (s, t)
    else none
  else if Instruction.opcode ins = 0x2 then
    some ({ s with delay_slot := s.pc,
                   pc := (Instruction.address ins <<< 2) ||| (s.pc &&& 0xF0000000) }, t)
  else if Instruction.opcode ins = 0x3 then
    some ({ ({ s with delay_slot := s.pc }).write_reg 31 (wrapAdd s.pc 4) with
            pc := (Instruction.address ins <<< 2) ||| (s.pc &&& 0xF0000000) }, t)
  else if Instruction.opcode ins = 0x4 then
    if s.read_reg (Instruction.rs ins) = s.read_reg (Instruction.rt ins) then
      some ({ s with delay_slot := s.pc,
                     pc := wrapAdd (shl32 (Instruction.immediate_sign_extended ins) 2) s.pc }, t)
    else some (s, t)
  else if Instruction.opcode ins = 0x5 then
    if s.read_reg (Instruction.rs ins) ≠ s.read_reg (Instruction.rt ins) then
      some ({ s with delay_slot := s.pc,
                     pc := wrapAdd (shl32 (Instruction.immediate_sign_extended ins) 2) s.pc }, t)
    else some (s, t)
  else if Instruction.opcode ins = 0x6 then
    if toSigned (s.read_reg (Instruction.rs ins)) ≤ 0 then
      some ({ s with delay_slot := s.pc,
                     pc := wrapAdd (shl32 (Instruction.immediate_sign_extended ins) 2) s.pc }, t)
    else some (s, t)
  else if Instruction.opcode ins = 0x7 then
    if 0 < toSigned (s.read_reg (Instruction.rs ins)) then
      some ({ s with delay_slot := s.pc,
                     pc := wrapAdd (shl32 (Instruction.immediate_sign_extended ins) 2) s.pc }, t)
    else some (s, t)
  else if Instruction.opcode ins = 0x8 then
    match checkedAddI32 (toSigned (s.read_reg (Instruction.rs ins)))
        (toSigned (Instruction.immediate_sign_extended ins)) with
    | none => none
    | some z => some (s.write_reg (Instruction.rt ins) (toNat32 z), t)
  else if Instruction.opcode ins = 0x9 then
    some (s.write_reg (Instruction.rt ins)
      (wrapAdd (s.read_reg (Instruction.rs ins)) (Instruction.immediate_sign_extended ins)), t)
  else if Instruction.opcode ins = 0xA then
    some (s.write_reg (Instruction.rt ins)
      (if toSigned (s.read_reg (Instruction.rs ins)) < (Instruction.immediate ins : Int)
       then 1 else 0), t)
  else if Instruction.opcode ins = 0xB then
    some (s.write_reg (Instruction.rt ins)
      (if s.read_reg (Instruction.rs ins) < Instruction.immediate_sign_extended ins
       then 1 else 0), t)
  else if Instruction.opcode ins = 0xC then
    some (s.write_reg (Instruction.rt ins)
      ((ins &&& 0xFFFF) &&& s.read_reg (Instruction.rs ins)), t)
  else if Instruction.opcode ins = 0xD then
    some (s.write_reg (Instruction.rt ins)
      (s.read_reg (Instruction.rs ins) ||| Instruction.immediate ins), t)
  else if Instruction.opcode ins = 0xF then
    some (s.write_reg (Instruction.rt ins) (Instruction.immediate ins <<< 16), t)
  else if Instruction.opcode ins = 0x10 then
    if Instruction.rs ins = 0x4 then
      some ({ s with
        cop0 := s.cop0.write_reg (Instruction.rd ins) (s.read_reg (Instruction.rt ins)) }, t)
    else if Instruction.rs ins = 0x0 then
      some (s.write_reg (Instruction.rt ins) (s.cop0.read_reg (Instruction.rd ins)), t)
    else if Instruction.rs ins = 0x10 then
      let status := s.cop0.read_reg 12
      let c' := s.cop0.write_reg 12 ((status &&& 0xfffffff0) ||| ((status &&& 0x3c) >>> 2))
      some ({ s with cop0 := c', pc := c'.read_reg 14 }, t)
    else some (s, t)
  else if Instruction.opcode ins = 0x20 then
    let addr := wrapAdd (Instruction.immediate_sign_extended ins) (s.read_reg (Instruction.rs ins))
    (s.main_bus.read_byte addr).map fun b =>
      (s.write_reg (Instruction.rt ins) (signExt8 b), t)
  else if Instruction.opcode ins = 0x21 then
    let addr := wrapAdd (Instruction.immediate_sign_extended ins) (s.read_reg (Instruction.rs ins))
    (s.read_bus_half_word addr t).map fun h =>
      (s.write_reg (Instruction.rt ins) (signExt16 h), t)
  else if Instruction.opcode ins = 0x23 then
    let addr := wrapAdd (Instruction.immediate_sign_extended ins) (s.read_reg (Instruction.rs ins))
    (s.read_bus_word addr t).map fun w =>
      (s.write_reg (Instruction.rt ins) w, t)
  else if Instruction.opcode ins = 0x24 then
    let addr := wrapAdd (Instruction.immediate_sign_extended ins) (s.read_reg (Instruction.rs ins))
    (s.main_bus.read_byte addr).map fun b =>
      (s.write_reg (Instruction.rt ins) b, t)
  else if Instruction.opcode ins = 0x25 then
    let addr := wrapAdd (Instruction.immediate_sign_extended ins) (s.read_reg (Instruction.rs ins))
    (s.read_bus_half_word addr t).map fun h =>
      (s.write_reg (Instruction.rt ins) h, t)
  else if Instruction.opcode ins = 0x28 then
    let addr := wrapAdd (Instruction.immediate_sign_extended ins) (s.read_reg (Instruction.rs ins))
    (s.write_bus_byte addr (s.read_reg (Instruction.rt ins) &&& 0xFF)).map fun s' => (s', t)
  else if Instruction.opcode ins = 0x29 then
    let addr := wrapAdd (Instruction.immediate_sign_extended ins) (s.read_reg (Instruction.rs ins))
    s.write_bus_half_word addr (s.read_reg (Instruction.rt ins) &&& 0xFFFF) t
  else if Instruction.opcode ins = 0x22 then
    let addr := wrapAdd (Instruction.immediate_sign_extended ins) (s.read_reg (Instruction.rs ins))
    (s.read_bus_word (addr &&& 0xFFFFFFFC) t).map fun word =>
      let reg_val := s.read_reg (Instruction.rt ins)
      (s.write_reg (Instruction.rt ins)
        (if addr &&& 3 = 0 then (reg_val &&& 0x00ffffff) ||| shl32 word 24
         else if addr &&& 3 = 1 then (reg_val &&& 0x0000ffff) ||| shl32 word 16
         else if addr &&& 3 = 2 then (reg_val &&& 0x000000ff) ||| shl32 word 8
         else (reg_val &&& 0x00000000) ||| shl32 word 0), t)
  else if Instruction.opcode ins = 0x26 then
    let addr := wrapAdd (Instruction.immediate_sign_extended ins) (s.read_reg (Instruction.rs ins))
    (s.read_bus_word (addr &&& 0xFFFFFFFC) t).map fun word =>
      let reg_val := s.read_reg (Instruction.rt ins)
      (s.write_reg (Instruction.rt ins)
        (if addr &&& 3 = 3 then (reg_val &&& 0xffffff00) ||| shr32 word 24
         else if addr &&& 3 = 2 then (reg_val &&& 0xffff0000) ||| shr32 word 16
         else if addr &&& 3 = 1 then (reg_val &&& 0xff000000) ||| shr32 word 8
         else (reg_val &&& 0x00000000) ||| shr32 word 0), t)
  else if Instruction.opcode ins = 0x2A then
    let addr := wrapAdd (Instruction.immediate_sign_extended ins) (s.read_reg (Instruction.rs ins))
    (s.read_bus_word (addr &&& 0xFFFFFFFC) t).bind fun word =>
      let reg_val := s.read_reg (Instruction.rt ins)
      s.write_bus_word (addr &&& 0xFFFFFFFC)
        (if addr &&& 3 = 0 then (word &&& 0xffffff00) ||| shr32 reg_val 24
         else if addr &&& 3 = 1 then (word &&& 0xffff0000) ||| shr32 reg_val 16
         else if addr &&& 3 = 2 then (word &&& 0xff000000) ||| shr32 reg_val 8
         else (word &&& 0x00000000) ||| shr32 reg_val 0) t
  else if Instruction.opcode ins = 0x2E then
    let addr := wrapAdd (Instruction.immediate_sign_extended ins) (s.read_reg (Instruction.rs ins))
    (s.read_bus_word (addr &&& 0xFFFFFFFC) t).bind fun word =>
      let reg_val := s.read_reg (Instruction.rt ins)
      s.write_bus_word (addr &&& 0xFFFFFFFC)
        (if addr &&& 3 = 0 then (word &&& 0x00000000) ||| shl32 reg_val 0
         else if addr &&& 3 = 1 then (word &&& 0x000000ff) ||| shl32 reg_val 8
         else if addr &&& 3 = 2 then (word &&& 0x0000ffff) ||| shl32 reg_val 16
         else (word &&& 0x00ffffff) ||| shl32 reg_val 24) t
  else if Instruction.opcode ins = 0x2B then
    let addr := wrapAdd (s.read_reg (Instruction.rs ins)) (Instruction.immediate_sign_extended ins)
    s.write_bus_word addr (s.read_reg (Instruction.rt ins)) t
  else none

/-- One iteration of the interrupt dispatch loop at the head of
`R3000::step_instruction` (`src/cpu/mod.rs:108-114`): fire the Int exception
when COP0 interrupts are enabled and bit `i` is pending and unmasked. -/
def R3000.irqStep (s : R3000) (i : Nat) : Option R3000 :=
  if s.cop0.interrupt_enabled ∧ s.i_status.testBit i ∧ s.i_mask.testBit i then
    s.fire_exception 0
  else some s

/-- The interrupt dispatch loop (`for i in 0..=10`) of
`R3000::step_instruction`, folded left over the scanned bit indices. -/
def R3000.foldIrq (s : R3000) : List Nat → Option R3000
  | [] => some s
  | i :: rest => (s.irqStep i).bind fun s' => s'.foldIrq rest

/-- The bit indices `0..=10` scanned by the interrupt dispatch loop. -/
def irqList : List Nat := [0, 1, 2, 3, 4, 5, 6, 7, 8, 9, 10]

/-- The head of `R3000::step_instruction` (`src/cpu/mod.rs:102-114`): poll
the GPU vblank edge into I_STAT bit 0, then run the interrupt dispatch
loop.  Exception delivery for a posted interrupt happens here and nowhere
else in a step. -/
def R3000.stepInterruptPhase (s : R3000) : Option R3000 :=
  let p := s.main_bus.gpu.consume_vblank
  let s1 := { s with main_bus := { s.main_bus with gpu := p.2 } }
  let s2 := if p.1 then { s1 with i_status := s1.i_status ||| 1 } else s1
  s2.foldIrq irqList

/-- `R3000::step_instruction` (`src/cpu/mod.rs:100`): interrupt phase,
delayed-load commit, fetch, PC increment, execute, then the branch-delay
slot instruction if one is armed. -/
def R3000.step_instruction (s : R3000) (t : TimerState) : Option (R3000 × TimerState) :=
  (s.stepInterruptPhase).bind fun s1 =>
    let s2 := match s1.load_delay with
      | some ld => ({ s1 with load_delay := none }).write_reg ld.1 ld.2
      | none => s1
    (s2.main_bus.read_word s2.pc).bind fun ins =>
      let s3 := { s2 with old_pc := s2.pc, pc := wrapAdd s2.pc 4 }
      (s3.execute_instruction t ins).bind fun r =>
        if r.1.delay_slot ≠ 0 then
          (r.1.main_bus.read_word r.1.delay_slot).bind fun dins =>
            (r.1.execute_instruction r.2 dins).map fun r2 =>
              ({ r2.1 with delay_slot := 0 }, r2.2)
        else some r

/-- `PSXEmu::read_gen_reg` (`src/lib.rs:155`): raw indexing into the
register array; `none` models the out-of-bounds panic. -/
def PSXEmu.read_gen_reg (s : R3000) (reg_num : Nat) : Option Nat :=
  if reg_num < 32 then some (s.gen_registers reg_num) else none

/-- `PSXEmu::set_gen_reg` (`src/lib.rs:159`): raw indexed assignment into
the register array, with no special case for register 0. -/
def PSXEmu.set_gen_reg (s : R3000) (reg_num v : Nat) : Option R3000 :=
  if reg_num < 32 then
    some { s with gen_registers := fun j => if j = reg_num then v else s.gen_registers j }
  else none

/-- The value claim C9 asserts SLTI writes: the *sign-extended* immediate
compared signed against rs.  (Second definition for the refinement check;
the code's behaviour is the `0xA` arm of `R3000.execute_instruction`.) -/
def sltiSpecSignExtended (rs_val imm : Nat) : Nat :=
  if toSigned rs_val < toSigned (signExt16 imm) then 1 else 0

/-- A bus whose RAM, BIOS and GPU state are all zero, for concrete runs. -/
def zeroBus : MainBus :=
  { bios := ⟨fun _ => 0⟩
    memory := ⟨fun _ => 0⟩
    gpu := { gpuread := 0, gpustat := 0, vblank := false } }

/-- An empty timer register file, for concrete runs. -/
def zeroTimers : TimerState := ⟨fun _ => 0⟩

/-- A freshly constructed and reset CPU over `zeroBus` (the state after
`PSXEmu::new`). -/
def freshCpu : R3000 := (R3000.new zeroBus).reset

/-- `freshCpu` with PC moved to an aligned RAM address and registers r1, r2
holding the two given values — the scratch state the concrete instruction
runs use. -/
def cpuWithRegs (v1 v2 : Nat) : R3000 :=
  { R3000.new zeroBus with
    pc := 0x1000
    gen_registers := fun j => if j = 1 then v1 else if j = 2 then v2 else 0 }

/-- The ExcCode field of a Cause register value (bits 2–6, spec §3). -/
def excCodeOf (cause : Nat) : Nat := (cause >>> 2) &&& 0x1F

/-- The COP0 state produced by `R3000.fire_exception` (the same write chain,
factored out so the theorems can name it). -/
def fireCop0 (c : Cop0) (pc exc : Nat) : Cop0 :=
  let c1 := c.set_cause_execode exc
  let c2 := c1.write_reg 14 pc
  let old_status := c2.read_reg 12
  let c3 := c2.write_reg 12
    ((old_status &&& 0xFFFFFFC0) ||| (((old_status &&& 0x3f) <<< 2) &&& 0x3f))
  c3.write_reg 12 (mask32 (c3.read_reg 12 <<< 4))

/-- Concrete state for the C1 run: PC at 0x80001000, Status = 1 (IEc set,
BEV clear), no branch-delay slot armed. -/
def c1State : R3000 :=
  { R3000.new zeroBus with pc := 0x80001000, cop0 := Cop0.new.write_reg 12 1 }

/-- Concrete state for the C2 run: I_MASK bit 0 set, COP0 interrupts
disabled (Status = 0), PC at 0x1000. -/
def c2State : R3000 := { R3000.new zeroBus with i_mask := 1, pc := 0x1000 }

/-- Concrete state for the C3 witness: I_STAT = 0x3 pending. -/
def c3State : R3000 := { R3000.new zeroBus with i_status := 3 }

/-- Concrete state for the C5 witness: Status bit 16 (IsC) set. -/
def isoCpu : R3000 := { R3000.new zeroBus with cop0 := Cop0.new.write_reg 12 0x10000 }

/-- Concrete state for the C2 witness: I_MASK bit 0 set, COP0 interrupts
enabled (Status = 1), PC at 0x1000, nothing pending. -/
def c2wState : R3000 :=
  { R3000.new zeroBus with i_mask := 1, cop0 := Cop0.new.write_reg 12 1, pc := 0x1000 }

/-! ### Helper lemmas -/

/-- A single set bit tests true exactly at its own index. -/
theorem testBit_one_shl (n i : Nat) : (1 <<< n).testBit i = decide (i = n) := by
  rcases eq_or_ne i n with h | h
  · subst h
    simp [Nat.shiftLeft_eq, Nat.testBit_two_pow_self]
  · simp [Nat.shiftLeft_eq, Nat.testBit_two_pow_of_ne (Ne.symm h), h]

/-- Bit 23 of Status survives the exception-entry mode push (which only
rewrites the low six bits). -/
theorem testBit23_modePush (x : Nat) :
    ((x &&& 0xFFFFFFC0) ||| (((x &&& 0x3f) <<< 2) &&& 0x3f)).testBit 23 = x.testBit 23 := by
  have h1 : (0xFFFFFFC0 : Nat).testBit 23 = true := by decide
  have h2 : (0x3f : Nat).testBit 23 = false := by decide
  simp [Nat.testBit_or, Nat.testBit_and, h1, h2]

/-- Clearing the Cause ExcCode bits leaves ExcCode = 0. -/
theorem excCodeOf_and_mask (x : Nat) : excCodeOf (x &&& 0xFFFFFF83) = 0 := by
  apply Nat.eq_of_testBit_eq
  intro i
  simp only [excCodeOf, Nat.testBit_and, Nat.testBit_shiftRight, Nat.zero_testBit]
  by_cases h : i < 5
  · have : Nat.testBit 0xFFFFFF83 (2 + i) = false := by interval_cases i <;> decide
    simp [this]
  · have : (0x1F : Nat).testBit i = false :=
      Nat.testBit_lt_two_pow (lt_of_lt_of_le (by norm_num)
        (Nat.pow_le_pow_right (by norm_num) (Nat.le_of_not_lt h)))
    simp [this]

/-- `fire_exception` on a state with no armed delay slot: closed form, with
the vector selected by bit 23 of the *pre-exception* Status. -/
theorem fire_exception_eq (s : R3000) (exc : Nat) (hds : s.delay_slot = 0) :
    s.fire_exception exc = some
      { s with cop0 := fireCop0 s.cop0 s.pc exc,
               pc := if (s.cop0.read_reg 12).testBit 23 then 0xBFC00180 else 0x80000080 } := by
  have hmid : (((s.cop0.set_cause_execode exc).write_reg 14 s.pc).write_reg 12
      (((((s.cop0.set_cause_execode exc).write_reg 14 s.pc).read_reg 12) &&& 0xFFFFFFC0) |||
        ((((((s.cop0.set_cause_execode exc).write_reg 14 s.pc).read_reg 12) &&& 0x3f) <<< 2) &&&
          0x3f))).read_reg 12
      = ((s.cop0.read_reg 12 &&& 0xFFFFFFC0) |||
          (((s.cop0.read_reg 12 &&& 0x3f) <<< 2) &&& 0x3f)) := by
    simp [Cop0.write_reg, Cop0.read_reg, Cop0.set_cause_execode]
  simp only [R3000.fire_exception, fireCop0]
  rw [if_neg (by simp [hds])]
  rw [hmid, testBit23_modePush]

/-- The whole-Status left shift by 4 at the end of `fire_exception` clears
Status bit 0, so COP0 interrupts are disabled afterwards. -/
theorem fireCop0_disables_interrupts (c : Cop0) (pc exc : Nat) :
    (fireCop0 c pc exc).interrupt_enabled = false := by
  simp [fireCop0, Cop0.interrupt_enabled, Cop0.write_reg, Cop0.read_reg, mask32,
    Nat.shiftLeft_eq]
  omega

/-- EPC (COP0 r14) after `fireCop0` is the captured PC. -/
theorem fireCop0_epc (c : Cop0) (pc exc : Nat) : (fireCop0 c pc exc).read_reg 14 = pc := by
  simp [fireCop0, Cop0.write_reg, Cop0.read_reg, Cop0.set_cause_execode]

/-- ExcCode after `fireCop0` with the Int code (0) is 0. -/
theorem fireCop0_excCode_int (c : Cop0) (pc : Nat) :
    excCodeOf ((fireCop0 c pc 0).read_reg 13) = 0 := by
  have : (fireCop0 c pc 0).read_reg 13 = c.read_reg 13 &&& 0xFFFFFF83 := by
    simp [fireCop0, Cop0.write_reg, Cop0.read_reg, Cop0.set_cause_execode]
  rw [this, excCodeOf_and_mask]

/-- An iteration of the dispatch loop that does not fire leaves the state
untouched. -/
theorem irqStep_skip (s : R3000) (i : Nat)
    (h : ¬(s.cop0.interrupt_enabled = true ∧ s.i_status.testBit i = true ∧
           s.i_mask.testBit i = true)) :
    s.irqStep i = some s := by
  simp only [R3000.irqStep]
  rw [if_neg h]

/-- The dispatch loop skips every index it has no cause to fire on. -/
theorem foldIrq_skip_all (l : List Nat) (s : R3000)
    (h : ∀ i ∈ l, ¬(s.cop0.interrupt_enabled = true ∧ s.i_status.testBit i = true ∧
           s.i_mask.testBit i = true)) :
    s.foldIrq l = some s := by
  induction l with
  | nil => rfl
  | cons a as ih =>
    show (s.irqStep a).bind _ = some s
    rw [irqStep_skip s a (h a (by simp))]
    simpa using ih fun i hi => h i (by simp [hi])

/-- With COP0 interrupts disabled the dispatch loop is the identity. -/
theorem foldIrq_disabled (l : List Nat) (s : R3000)
    (h : s.cop0.interrupt_enabled = false) :
    s.foldIrq l = some s :=
  foldIrq_skip_all l s fun i _ hc => by simp [h] at hc

/-- The dispatch loop splits over list concatenation. -/
theorem foldIrq_append (l1 l2 : List Nat) (s : R3000) :
    s.foldIrq (l1 ++ l2) = (s.foldIrq l1).bind fun s' => s'.foldIrq l2 := by
  induction l1 generalizing s with
  | nil => simp [R3000.foldIrq]
  | cons a as ih =>
    show (s.irqStep a).bind _ = ((s.irqStep a).bind _).bind _
    cases s.irqStep a with
    | none => rfl
    | some s1 => simpa using ih s1

/-- A dispatch pass over `l1 ++ src :: l2` in which only `src` is pending
fires exactly once: the earlier indices are skipped, `src` raises Int, and
the whole-Status shift of `fire_exception` disables interrupts for the
rest of the pass. -/
theorem foldIrq_single_fire (s : R3000) (src : Nat) (l1 l2 : List Nat)
    (h1 : ∀ i ∈ l1, s.i_status.testBit i = false)
    (hds : s.delay_slot = 0)
    (hEn : s.cop0.interrupt_enabled = true)
    (hPend : s.i_status.testBit src = true)
    (hMask : s.i_mask.testBit src = true) :
    s.foldIrq (l1 ++ src :: l2) = some
      { s with cop0 := fireCop0 s.cop0 s.pc 0,
               pc := if (s.cop0.read_reg 12).testBit 23 then 0xBFC00180 else 0x80000080 } := by
  rw [foldIrq_append]
  rw [foldIrq_skip_all l1 s fun i hi hc => by rw [h1 i hi] at hc; exact Bool.false_ne_true hc.2.1]
  show (s.irqStep src).bind _ = _
  have hstep : s.irqStep src = s.fire_exception 0 := by
    simp only [R3000.irqStep]
    rw [if_pos ⟨hEn, hPend, hMask⟩]
  rw [hstep, fire_exception_eq s 0 hds]
  show R3000.foldIrq _ l2 = _
  exact foldIrq_disabled l2 _ (fireCop0_disables_interrupts s.cop0 s.pc 0)

/-- With no vblank edge pending, the head of a step is just the interrupt
dispatch loop. -/
theorem stepInterruptPhase_no_vblank (s : R3000) (h : s.main_bus.gpu.vblank = false) :
    s.stepInterruptPhase = s.foldIrq irqList := by
  have hg : ({ s.main_bus.gpu with vblank := false } : Gpu) = s.main_bus.gpu := by
    conv_rhs => rw [show s.main_bus.gpu
      = ⟨s.main_bus.gpu.gpuread, s.main_bus.gpu.gpustat, s.main_bus.gpu.vblank⟩ from rfl]
    rw [h]
  simp only [R3000.stepInterruptPhase, Gpu.consume_vblank, h, hg]
  rfl

/-! ### Claim theorems -/

/-- **C1** (code_bug evidence): with no delay slot armed, PC=0x80001000 and
Status=1, `fire_exception(Sys)` sets EPC=0x80001000, ExcCode=8 and
PC=0x8000_0080 as claimed, but leaves Status = 0x40, not the claimed 0x04:
after the 6-bit mode push the code shifts the *whole* Status register left
by 4 (`src/cpu/mod.rs:681`), so the other Status bits do not stay
unchanged. -/
theorem c1_fire_exception_shifts_whole_status :
    (c1State.fire_exception 8).map
        (fun s => (s.cop0.read_reg 14, excCodeOf (s.cop0.read_reg 13), s.pc, s.cop0.read_reg 12))
      = some (0x80001000, 8, 0x80000080, 0x40) ∧
    ((c1State.cop0.read_reg 12 &&& 0xFFFFFFC0) |||
        (((c1State.cop0.read_reg 12 &&& 0x3f) <<< 2) &&& 0x3f)) = 0x04 ∧
    (0x40 : Nat) ≠ 0x04 := by decide

/-- **C4** (code_bug evidence): after `write_byte` stores 0xAB at physical
offset 0x1234, byte reads through KUSEG and KSEG0 return 0xAB, but the
KSEG1 byte read at 0xA0001234 panics (`MainBus::read_byte` has no KSEG1
arm), instead of returning the stored byte. -/
theorem c4_kseg1_byte_read_panics :
    (zeroBus.write_byte 0x1234 0xAB).map
        (fun b => (b.read_byte 0x1234, b.read_byte 0x80001234, b.read_byte 0xA0001234))
      = some (some 0xAB, some 0xAB, none) := by decide

/-- **C6** (code_bug evidence): ADD and ADDI of rs=0x8000_0000 with
rt/immediate −1 terminate the host (`panic!("ADD overflowed")`,
`src/cpu/mod.rs:267,439`) instead of raising the MIPS Ovf exception, while
ADDU with the same operands wraps to 0x7FFF_FFFF. -/
theorem c6_add_overflow_panics_host :
    ((cpuWithRegs 0x80000000 0xFFFFFFFF).execute_instruction zeroTimers 0x221820).isSome
      = false ∧
    ((cpuWithRegs 0x80000000 0xFFFFFFFF).execute_instruction zeroTimers 0x2023FFFF).isSome
      = false ∧
    ((cpuWithRegs 0x80000000 0xFFFFFFFF).execute_instruction zeroTimers 0x221821).map
        (fun r => r.1.read_reg 3) = some 0x7FFFFFFF := by decide

/-- **C7** (code_bug evidence): DIV and DIVU with divisor register rt = 0
trap in host arithmetic (`rs / rt` on the host, `src/cpu/mod.rs:247,255`)
instead of completing; with a non-zero divisor DIV completes normally
(7 / 3 gives LO=2, HI=1). -/
theorem c7_div_by_zero_panics_host :
    ((cpuWithRegs 7 0).execute_instruction zeroTimers 0x0022001A).isSome = false ∧
    ((cpuWithRegs 7 0).execute_instruction zeroTimers 0x0022001B).isSome = false ∧
    ((cpuWithRegs 7 3).execute_instruction zeroTimers 0x0022001A).map
        (fun r => (r.1.lo, r.1.hi)) = some (2, 1) := by decide

/-- **C10** (code_bug evidence): `PSXEmu::set_gen_reg(0, 5)` stores 5 into
general register 0 (it indexes the array directly, with none of the zero
guard `R3000::write_reg` applies), after which register 0 reads as 5 both
through the debug accessor and through the CPU's own `read_reg` — violating
the register-0 invariant the claim states. -/
theorem c10_set_gen_reg_bypasses_zero_guard :
    (PSXEmu.set_gen_reg freshCpu 0 5).map
        (fun s => (PSXEmu.read_gen_reg s 0, s.read_reg 0)) = some (some 5, 5) ∧
    freshCpu.read_reg 0 = 0 := by decide

/-- **C2** (counterexample): in a state with I_MASK bit 0 set but COP0
interrupts *disabled*, `fire_external_interrupt(VBLANK)` itself delivers the
Int exception — PC jumps from 0x1000 to the 0x8000_0080 vector with
ExcCode=0 and EPC=0x1000 during the posting call — contradicting both "the
posting call itself does not deliver the exception" and the "only if COP0
interrupts are enabled" half of the claimed iff. -/
theorem c2_posting_with_interrupts_disabled_delivers :
    c2State.cop0.interrupt_enabled = false ∧
    c2State.i_mask.testBit 0 = true ∧
    (c2State.fire_external_interrupt 0).map
        (fun s => (s.pc, s.i_status, excCodeOf (s.cop0.read_reg 13), s.cop0.read_reg 14))
      = some (0x80000080, 1, 0, 0x1000) := by decide

/-- **C8** (counterexample): on the freshly constructed CPU, `reset()`
produces the claimed PC, zero registers and clear delay slot, but Status
bit 22 reads *false* — `reset` sets bit 23 (`set_bit(23, true)`,
`src/cpu/mod.rs:95`), not bit 22, so the claim as stated fails. -/
theorem c8_reset_leaves_bit22_clear :
    (freshCpu.cop0.read_reg 12).testBit 22 = false ∧
    (freshCpu.cop0.read_reg 12).testBit 23 = true ∧
    freshCpu.pc = 0xBFC00000 ∧ freshCpu.delay_slot = 0 ∧
    (∀ i, freshCpu.gen_registers i = 0) ∧ freshCpu.hi = 0 ∧ freshCpu.lo = 0 :=
  ⟨by decide, by decide, rfl, rfl, fun _ => rfl, rfl, rfl⟩

/-- **C9** (counterexample): SLTI with rs-value 0 and immediate 0xFFFF
writes 1 (the code compares against the *zero-extended* immediate 65535,
`instruction.immediate() as i32`), while the claimed semantics — signed
comparison against the sign-extended immediate, i.e. 0 < −1 — give 0. -/
theorem c9_slti_uses_zero_extended_immediate :
    ((cpuWithRegs 0 0).execute_instruction zeroTimers 0x2822FFFF).map (fun r => r.1.read_reg 2)
      = some 1 ∧
    sltiSpecSignExtended ((cpuWithRegs 0 0).read_reg 1) 0xFFFF = 0 ∧
    ((cpuWithRegs 0 0).execute_instruction zeroTimers 0x2822FFFF).map (fun r => r.1.read_reg 2)
      ≠ some (sltiSpecSignExtended ((cpuWithRegs 0 0).read_reg 1) 0xFFFF) := by decide

/-- **C3** (confirmed): a word store to I_STAT (0x1F80_1070) that reaches
the register (cache not isolated) replaces the pending value by
`old AND v`, and — isolated or not — a word store to I_STAT never sets a
pending bit that was clear. -/
theorem c3_istat_word_write_acknowledge (s : R3000) (t : TimerState) (v : Nat) :
    (s.cop0.cache_isolated = false →
      s.write_bus_word 0x1F801070 v t = some ({ s with i_status := s.i_status &&& v }, t)) ∧
    (∀ r, s.write_bus_word 0x1F801070 v t = some r →
      ∀ i, r.1.i_status.testBit i = true → s.i_status.testBit i = true) := by
  constructor
  · intro h
    simp [R3000.write_bus_word, h]
  · intro r hr i hi
    obtain ⟨r1, r2⟩ := r
    by_cases hc : s.cop0.cache_isolated
    · simp [R3000.write_bus_word, hc] at hr
      rw [← hr.1] at hi
      exact hi
    · simp [R3000.write_bus_word, hc] at hr
      rw [← hr.1] at hi
      simp only [Nat.testBit_and, Bool.and_eq_true] at hi
      exact hi.1

/-- **C3** witness: with I_STAT = 0x3, a word store of 0x1 to I_STAT yields
I_STAT = 0x3 AND 0x1. -/
theorem c3_istat_word_write_acknowledge_witness :
    c3State.write_bus_word 0x1F801070 1 zeroTimers
      = some ({ c3State with i_status := c3State.i_status &&& 1 }, zeroTimers) :=
  (c3_istat_word_write_acknowledge c3State zeroTimers 1).1 (by decide)

/-- **C5** (confirmed): with Status bit 16 (IsC) set, word, halfword and
byte bus writes all leave the CPU, bus and timer state unchanged; bus reads
never consult COP0 at all (so they behave identically whatever the Status
register holds); and a location "stored to" while isolated reads back — under
any COP0 state, e.g. with the bit cleared — exactly as before the store. -/
theorem c5_cache_isolation_drops_writes (s : R3000) (t : TimerState) (addr v : Nat) :
    (s.cop0.cache_isolated = true →
      s.write_bus_word addr v t = some (s, t) ∧
      s.write_bus_half_word addr v t = some (s, t) ∧
      s.write_bus_byte addr v = some s) ∧
    (∀ c : Cop0, R3000.read_bus_word { s with cop0 := c } addr t = s.read_bus_word addr t) ∧
    (∀ c : Cop0, R3000.read_bus_half_word { s with cop0 := c } addr t
        = s.read_bus_half_word addr t) ∧
    (s.cop0.cache_isolated = true →
      ∀ r, s.write_bus_word addr v t = some r →
        ∀ c : Cop0, R3000.read_bus_word { r.1 with cop0 := c } addr r.2
          = R3000.read_bus_word { s with cop0 := c } addr t) := by
  refine ⟨fun h => ⟨?_, ?_, ?_⟩, fun c => rfl, fun c => rfl, fun h r hr c => ?_⟩
  · simp [R3000.write_bus_word, h]
  · simp [R3000.write_bus_half_word, h]
  · simp [R3000.write_bus_byte, h]
  · simp only [R3000.write_bus_word, h, if_true, Option.some.injEq] at hr
    rw [← hr]

/-- **C5** witness: on a CPU with Status bit 16 set, a word store into RAM
at 0x100 changes nothing. -/
theorem c5_cache_isolation_drops_writes_witness :
    isoCpu.write_bus_word 0x100 7 zeroTimers = some (isoCpu, zeroTimers) :=
  ((c5_cache_isolation_drops_writes isoCpu zeroTimers 0x100 7).1 (by decide)).1

/-- **C8** (amended): after `reset()` on a CPU with no armed branch-delay
slot (as the freshly constructed CPU is — `reset` does not touch
`delay_slot`), PC = 0xBFC0_0000, all 32 general registers and HI and LO are
0, `delay_slot` is 0, and bit **23** of COP0 Status — the bit the source
uses as its BEV selector — reads as 1 (bit 22 is left untouched). -/
theorem c8_reset_amended (s : R3000) (h : s.delay_slot = 0) :
    s.reset.pc = 0xBFC00000 ∧ (∀ i, s.reset.gen_registers i = 0) ∧
    s.reset.hi = 0 ∧ s.reset.lo = 0 ∧ s.reset.delay_slot = 0 ∧
    (s.reset.cop0.read_reg 12).testBit 23 = true := by
  refine ⟨rfl, fun i => rfl, rfl, rfl, h, ?_⟩
  simp [R3000.reset, Cop0.write_reg, Cop0.read_reg, Nat.testBit_or, testBit_one_shl]
  exact Or.inr (by decide)

/-- **C8** witness: the freshly constructed CPU, once reset, has Status
bit 23 set. -/
theorem c8_reset_amended_witness :
    ((R3000.new zeroBus).reset.cop0.read_reg 12).testBit 23 = true :=
  (c8_reset_amended (R3000.new zeroBus) rfl).2.2.2.2.2

/-- **C9** (amended): SLTIU compares rs unsigned against the
*sign-extended* 16-bit immediate — so `sltiu rt, rs, -1` tests
rs < 0xFFFF_FFFF — but SLTI compares rs signed against the *zero-extended*
immediate (the raw u16 field cast to i32), not the sign-extended one;
each writes 1 when its comparison holds and 0 otherwise. -/
theorem c9_slti_sltiu_amended (s : R3000) (t : TimerState) (w : Nat)
    (ha : s.pc % 4 = 0) (hd : s.delay_slot % 4 = 0) :
    (Instruction.opcode w = 0xB →
      s.execute_instruction t w = some (s.write_reg (Instruction.rt w)
        (if s.read_reg (Instruction.rs w) < signExt16 (Instruction.immediate w) then 1 else 0),
        t)) ∧
    (Instruction.opcode w = 0xB → Instruction.immediate w = 0xFFFF →
      s.execute_instruction t w = some (s.write_reg (Instruction.rt w)
        (if s.read_reg (Instruction.rs w) < 0xFFFFFFFF then 1 else 0), t)) ∧
    (Instruction.opcode w = 0xA →
      s.execute_instruction t w = some (s.write_reg (Instruction.rt w)
        (if toSigned (s.read_reg (Instruction.rs w)) < (Instruction.immediate w : Int)
         then 1 else 0), t)) := by
  refine ⟨fun hop => ?_, fun hop him => ?_, fun hop => ?_⟩
  · simp [R3000.execute_instruction, hop, ha, hd, Instruction.immediate_sign_extended]
  · simp [R3000.execute_instruction, hop, ha, hd, Instruction.immediate_sign_extended, him,
      signExt16]
  · simp [R3000.execute_instruction, hop, ha, hd]

/-- **C9** witness: `sltiu r2, r1, 0xFFFF` with r1 = 5 takes the
sign-extended-immediate branch of the amended theorem. -/
theorem c9_slti_sltiu_amended_witness :
    (cpuWithRegs 5 0).execute_instruction zeroTimers 0x2C22FFFF
      = some ((cpuWithRegs 5 0).write_reg (Instruction.rt 0x2C22FFFF)
          (if (cpuWithRegs 5 0).read_reg (Instruction.rs 0x2C22FFFF) < 0xFFFFFFFF
           then 1 else 0), zeroTimers) :=
  (c9_slti_sltiu_amended (cpuWithRegs 5 0) zeroTimers 0x2C22FFFF (by decide) (by decide)).2.1
    (by decide) (by decide)

/-- A single set bit tests false away from its index. -/
theorem testBit_one_shl_ne (k i : Nat) (h : i ≠ k) : (1 <<< k).testBit i = false := by
  rw [testBit_one_shl]
  simp [h]

/-- The scanned index list splits around any `src ≤ 10`. -/
theorem irqList_split (src : Nat) (h : src ≤ 10) :
    irqList = List.range src ++ src :: (List.range (10 - src)).map (fun j => src + 1 + j) := by
  interval_cases src <;> rfl

/-- **C2** (amended): posting an interrupt for `source` sets I_STAT bit
`source`.  When the I_MASK bit for it is *clear*, the posting call changes
nothing else, and the Int exception is then delivered at the head of the
next CPU step if and only if both the I_MASK bit and the COP0
interrupt-enable are set (with only this source pending, nothing fires when
either is missing).  When the I_MASK bit is *set*, however, the posting
call itself delivers the Int exception immediately, without consulting the
COP0 interrupt-enable bit. -/
theorem c2_interrupt_posting_amended (s : R3000) (src : Nat)
    (hsrc : src ≤ 10) (hds : s.delay_slot = 0)
    (hvb : s.main_bus.gpu.vblank = false) (hstat : s.i_status = 0) :
    (s.i_mask.testBit src = false →
      s.fire_external_interrupt src = some { s with i_status := 1 <<< src }) ∧
    (s.i_mask.testBit src = true →
      s.fire_external_interrupt src = some
        { { s with i_status := 1 <<< src } with
            cop0 := fireCop0 s.cop0 s.pc 0,
            pc := if (s.cop0.read_reg 12).testBit 23 then 0xBFC00180 else 0x80000080 }) ∧
    (¬(s.cop0.interrupt_enabled = true ∧ s.i_mask.testBit src = true) →
      R3000.stepInterruptPhase { s with i_status := 1 <<< src }
        = some { s with i_status := 1 <<< src }) ∧
    (s.cop0.interrupt_enabled = true → s.i_mask.testBit src = true →
      R3000.stepInterruptPhase { s with i_status := 1 <<< src }
        = some { { s with i_status := 1 <<< src } with
            cop0 := fireCop0 s.cop0 s.pc 0,
            pc := if (s.cop0.read_reg 12).testBit 23 then 0xBFC00180 else 0x80000080 }) := by
  refine ⟨fun hm => ?_, fun hm => ?_, fun hne => ?_, fun hEn hm => ?_⟩
  · simp [R3000.fire_external_interrupt, hstat, hm]
  · simp only [R3000.fire_external_interrupt, hstat, Nat.zero_or]
    rw [if_pos hm]
    exact fire_exception_eq { s with i_status := 1 <<< src } 0 hds
  · rw [stepInterruptPhase_no_vblank { s with i_status := 1 <<< src } hvb]
    refine foldIrq_skip_all irqList _ fun i _ hc => ?_
    have hp : (1 <<< src).testBit i = true := hc.2.1
    rw [testBit_one_shl] at hp
    have hi : i = src := by simpa using hp
    exact hne ⟨hc.1, hi ▸ hc.2.2⟩
  · rw [stepInterruptPhase_no_vblank { s with i_status := 1 <<< src } hvb,
      irqList_split src hsrc]
    have hpend : ({ s with i_status := 1 <<< src } : R3000).i_status.testBit src = true := by
      show (1 <<< src).testBit src = true
      rw [testBit_one_shl]
      simp
    exact foldIrq_single_fire { s with i_status := 1 <<< src } src _ _
      (fun i hi => testBit_one_shl_ne src i (Nat.ne_of_lt (List.mem_range.mp hi)))
      hds hEn hpend hm

/-- **C2** witness: with I_MASK bit 0 and COP0 IEc both set and only VBLANK
pending, the head of the next step delivers Int. -/
theorem c2_interrupt_posting_amended_witness :
    R3000.stepInterruptPhase { c2wState with i_status := 1 <<< 0 }
      = some { { c2wState with i_status := 1 <<< 0 } with
          cop0 := fireCop0 c2wState.cop0 c2wState.pc 0,
          pc := if (c2wState.cop0.read_reg 12).testBit 23 then 0xBFC00180 else 0x80000080 } :=
  (c2_interrupt_posting_amended c2wState 0 (by decide) rfl rfl rfl).2.2.2 (by decide) (by decide)

end PsxEmu
